import Mathlib

/-!
Verification development for the payroll calculator
`src/calculadora_pagamento033.py` (repository MACN1987/recebimentos).

The Python program is a Tkinter application; all of its domain logic lives
in the module-level helper functions (`count_uteis`, `calc_inss`,
`calc_irrf`, `val_hora`, `calc_h_extra`) and in the method
`Calculadora.calcular`.  This file embeds those parts shallowly:

* money and rates are embedded as `ℚ` (the Python code uses binary floats;
  the decimal literals of the source are taken at their exact decimal value);
* each free-text entry field read by `calcular` is embedded as a `RawField`:
  the empty string, a string that parses as a number, or a non-empty string
  that does not parse (`float(...)` raises on it);
* the two modal prompts (start day, MEI activity) are explicit `Option`
  parameters of `calcular`, `none` meaning the dialog was cancelled;
* the outcomes of `calcular` — showing the pay-slip popup, one of the two
  `messagebox.showerror` validation branches with an early `return`, a bare
  `return` after a cancelled dialog, and the generic top-level
  `except Exception` handler — are the constructors of `CalcResult`.
-/

namespace Recebimentos

/-- Contract type (`tipo_contrato` radio group: CLT / PJ / MEI). -/
inductive TipoContrato
  | CLT
  | PJ
  | MEI
  deriving DecidableEq

/-- Pay mode (`tipo_valor` radio group: daily value / monthly total). -/
inductive TipoValor
  | diario
  | total
  deriving DecidableEq

/-- Calculation scope (`tipo_calculo` radio group: whole month / from a
specific day). -/
inductive TipoCalculo
  | mes
  | data
  deriving DecidableEq

/-- Alimony mode (`tipo_pensao` radio group: percent of salary / fixed). -/
inductive TipoPensao
  | percent
  | fix
  deriving DecidableEq

/-- MEI activity chosen in `MEIPopup` (values 1, 2, 3 of the IntVar). -/
inductive MEIAtividade
  | comercioIndustria
  | servicos
  | ambos
  deriving DecidableEq

/-- A free-text entry field as `calcular` sees it: empty string, a string
parsing to the number `q`, or a non-empty string on which `float(...)`
raises `ValueError`. -/
inductive RawField
  | empty
  | num (q : ℚ)
  | bad
  deriving DecidableEq

/-- Semantics of `float(s.replace(",", ".") if s else 0)`: the empty string
becomes `0`, a parseable string its value, an unparseable one raises
(embedded as `none`). -/
def orZero : RawField → Option ℚ
  | .empty => some 0
  | .num q => some q
  | .bad => none

/-- Semantics of `try: v = float(s.replace(",", ".")) except: v = 0`:
both the empty string and an unparseable string end in the `except`
branch and yield `0`. -/
def tryOrZero : RawField → ℚ
  | .empty => 0
  | .num q => q
  | .bad => 0

/-- Semantics of `float(s.replace(",", ".") if s else d)`: the empty string
becomes the default `d`, a parseable string its value, an unparseable one
raises (embedded as `none`). -/
def orDefault (d : ℚ) : RawField → Option ℚ
  | .empty => some d
  | .num q => some q
  | .bad => none

/-- Semantics of `float(s.replace(",", "."))` with no guard: only a
parseable string succeeds. -/
def parseStrict : RawField → Option ℚ
  | .empty => none
  | .num q => some q
  | .bad => none

/-- Gregorian leap-year test, as Python's `calendar.isleap`. -/
def isLeap (y : ℕ) : Bool :=
  (y % 4 == 0 && y % 100 != 0) || y % 400 == 0

/-- Number of days of month `m` of year `y`, as `calendar.monthrange(y, m)[1]`
for `1 ≤ m ≤ 12`. -/
def monthDays (y m : ℕ) : ℕ :=
  if m = 2 then (if isLeap y then 29 else 28)
  else if m = 4 ∨ m = 6 ∨ m = 9 ∨ m = 11 then 30
  else 31

/-- Days in the months of year `y` strictly before month `m`. -/
def daysBeforeMonth (y m : ℕ) : ℕ :=
  ((List.range' 1 (m - 1)).map (monthDays y)).sum

/-- Proleptic-Gregorian ordinal of the date `y-m-d`, as Python's
`date(y, m, d).toordinal()` (day 0001-01-01 has ordinal 1). -/
def toordinal (y m d : ℕ) : ℕ :=
  (y - 1) * 365 + (y - 1) / 4 - (y - 1) / 100 + (y - 1) / 400
    + daysBeforeMonth y m + d

/-- Weekday of `y-m-d` with Python's convention `Monday = 0 … Sunday = 6`
(`date(y, m, d).weekday()`); 0001-01-01 was a Monday. -/
def weekday (y m d : ℕ) : ℕ :=
  (toordinal y m d + 6) % 7

/-- The source's `count_uteis(y, m, start)`: number of Monday–Friday days
`d` with `start ≤ d ≤ monthrange(y, m)[1]`. -/
def count_uteis (y m start : ℕ) : ℕ :=
  ((List.range' start (monthDays y m + 1 - start)).filter
    (fun d => weekday y m d < 5)).length

/-- Python's `min(a, b)` on numbers, written out so that it evaluates in the
kernel. -/
def rmin (a b : ℚ) : ℚ :=
  if a ≤ b then a else b

/-- Python's `max(a, b)` on numbers, written out so that it evaluates in the
kernel. -/
def rmax (a b : ℚ) : ℚ :=
  if b ≤ a then a else b

/-- The source's `calc_inss(sal)`: the amount is first capped at the table
ceiling 8157.41 (`sal = min(sal, INSS_TETO)`), then the rows of
`INSS_FAIXAS` are scanned from the highest threshold down and the first row
whose threshold is strictly below the capped amount supplies rate and
subtractive deduction; if no row matches, the lowest row's rate applies
with deduction 0. -/
def calc_inss (sal : ℚ) : ℚ :=
  let s := rmin sal 8157.41
  if s > 8157.41 then s * 0.14 - 190.40
  else if s > 4190.83 then s * 0.12 - 106.59
  else if s > 2793.88 then s * 0.09 - 22.77
  else if s > 1518.00 then s * 0.075 - 0.00
  else s * 0.075

/-- The source's `calc_irrf(base)`: the rows of `IRRF_TABELA` are scanned
from the lowest threshold up and the first row whose threshold is at least
the base applies as `max(0, base * rate - deduction)`; the last row's
threshold is `inf`, so it catches everything above 4664.68. -/
def calc_irrf (base : ℚ) : ℚ :=
  if base ≤ 2428.80 then rmax 0 (base * 0.00 - 0.00)
  else if base ≤ 2826.65 then rmax 0 (base * 0.075 - 182.16)
  else if base ≤ 3751.05 then rmax 0 (base * 0.15 - 394.16)
  else if base ≤ 4664.68 then rmax 0 (base * 0.225 - 675.49)
  else rmax 0 (base * 0.275 - 908.73)

/-- The source's `val_hora(d)`: `d / 8 if d else 0`. -/
def val_hora (d : ℚ) : ℚ :=
  if d ≠ 0 then d / 8 else 0

/-- The source's `calc_h_extra(vh, h, pct)`. -/
def calc_h_extra (vh h pct : ℚ) : ℚ :=
  vh * h * (1 + pct / 100)

/-- Labels of pay-slip lines, one per distinct string literal appended to
`recebimentos`/`descontos` in `Calculadora.calcular`. -/
inductive Rubrica
  | salarioBruto
  | salarioBase
  | horasExtras
  | inss
  | irrf
  | pensaoAlimenticia
  | valeTransporte
  | valeRefeicao
  | valeAlimentacao
  | atraso
  | faltas
  | faturamento
  | irpj
  | csll
  | pisCofins
  | iss
  | das
  deriving DecidableEq, BEq

/-- The pay-slip data handed to `mostrar_popup`: ordered earnings, ordered
deductions, their totals, and the net amount. -/
structure PaySlip where
  recebimentos : List (Rubrica × ℚ)
  descontos : List (Rubrica × ℚ)
  total_recebimentos : ℚ
  total_descontos : ℚ
  liquido : ℚ
  deriving DecidableEq

/-- The state of the entry widgets that `Calculadora.calcular` reads.
`mes` and `ano` stand for the already-parsed integer month and year;
`anoValido` records whether the year text passes the
`len(...) == 4 and isdigit()` check; the remaining free-text fields are
kept as `RawField` because their parse failures are observable. -/
structure Inputs where
  tipo_contrato : TipoContrato
  tipo_valor : TipoValor
  tipo_calculo : TipoCalculo
  valor : RawField
  mes : ℕ
  ano : ℕ
  anoValido : Bool
  horas : RawField
  percentual : RawField
  paga_pensao : Bool
  tipo_pensao : TipoPensao
  valor_pensao : RawField
  vr_fixo : Bool
  valor_vr_fixo : RawField
  valor_vr : RawField
  va_fixo : Bool
  valor_va_fixo : RawField
  valor_va : RawField
  vt_fixo : Bool
  valor_vt_fixo : RawField
  vt_percentual : RawField
  atraso_horas : RawField
  atraso_minutos : RawField
  faltas : RawField

/-- Outcome of one run of `Calculadora.calcular`: the pay-slip popup, the
invalid-year error box, the missing-overtime-percentage error box, a bare
`return` after a cancelled dialog, or the generic top-level exception
handler. -/
inductive CalcResult
  | slip (p : PaySlip)
  | erroAno
  | erroPercentual
  | cancelled
  | erro
  deriving DecidableEq

/-- The base-salary block of `calcular` (lines 586–598): returns the pair
`(salario, dias_calc)`, or `none` when the start-day dialog of the
FROM_DAY path was cancelled.  The dialog enforces `1 ≤ d ≤ dias`, so the
natural subtraction `dias - d + 1` agrees with the source. -/
def salarioCalc (inp : Inputs) (valor : ℚ) (dias : ℕ) (promptDiaIni : Option ℕ) :
    Option (ℚ × ℕ) :=
  match inp.tipo_valor with
  | .diario =>
    match inp.tipo_calculo with
    | .mes => some (valor * (dias : ℚ), dias)
    | .data =>
      match promptDiaIni with
      | none => none
      | some d => some (valor * ((dias - d + 1 : ℕ) : ℚ), dias - d + 1)
  | .total => some (valor, dias)

/-- The alimony block of `calcular` (lines 600–613): percent of `salario`
or a fixed amount, an unparseable or empty amount silently becoming 0. -/
def pensaoCalc (inp : Inputs) (salario : ℚ) : ℚ :=
  if inp.paga_pensao then
    match inp.tipo_pensao with
    | .percent => salario * tryOrZero inp.valor_pensao / 100
    | .fix => tryOrZero inp.valor_pensao
  else 0

/-- The transport-voucher block (lines 644–653): in fixed mode an
unparseable amount silently becomes 0; in proportional mode an empty
percent field defaults to 6, the percent is capped at 6, and an
unparseable percent raises (`none`). -/
def vtCalc (inp : Inputs) (salario_bruto : ℚ) : Option ℚ :=
  if inp.vt_fixo then some (tryOrZero inp.valor_vt_fixo)
  else
    match orDefault 6 inp.vt_percentual with
    | none => none
    | some p => some (salario_bruto * (if p > 6 then 6 else p) / 100)

/-- The meal-voucher block (lines 656–663): fixed mode with silent 0 on
parse failure, else `dailyValue * uteis * 0.2` where an unparseable
non-empty daily value raises (`none`). -/
def vrCalc (inp : Inputs) (uteis : ℕ) : Option ℚ :=
  if inp.vr_fixo then some (tryOrZero inp.valor_vr_fixo)
  else (orZero inp.valor_vr).map (fun vr => vr * (uteis : ℚ) * 0.2)

/-- The food-voucher block (lines 665–672), same shape as the meal one. -/
def vaCalc (inp : Inputs) (uteis : ℕ) : Option ℚ :=
  if inp.va_fixo then some (tryOrZero inp.valor_va_fixo)
  else (orZero inp.valor_va).map (fun va => va * (uteis : ℚ) * 0.2)

/-- The pay-slip assembled at the end of the CLT branch (lines 674–695). -/
def cltSlip (salario salario_bruto val_h_extras inss irrf pensao vt desc_vr desc_va
    valor_atraso valor_falta : ℚ) : PaySlip :=
  { recebimentos :=
      [(Rubrica.salarioBruto, salario_bruto), (Rubrica.salarioBase, salario)]
        ++ (if val_h_extras > 0 then [(Rubrica.horasExtras, val_h_extras)] else [])
    descontos :=
      [(Rubrica.inss, inss), (Rubrica.irrf, irrf)]
        ++ (if pensao > 0 then [(Rubrica.pensaoAlimenticia, pensao)] else [])
        ++ [(Rubrica.valeTransporte, vt)]
        ++ (if desc_vr > 0 then [(Rubrica.valeRefeicao, desc_vr)] else [])
        ++ (if desc_va > 0 then [(Rubrica.valeAlimentacao, desc_va)] else [])
        ++ (if valor_atraso > 0 then [(Rubrica.atraso, valor_atraso)] else [])
        ++ (if valor_falta > 0 then [(Rubrica.faltas, valor_falta)] else [])
    total_recebimentos := salario_bruto
    total_descontos :=
      inss + irrf + pensao + vt + desc_vr + desc_va + valor_atraso + valor_falta
    liquido :=
      salario_bruto
        - (inss + irrf + pensao + vt + desc_vr + desc_va + valor_atraso + valor_falta) }

/-- The CLT branch of `calcular` (lines 618–695), after base salary and
alimony are known. -/
def cltBranch (inp : Inputs) (valor salario : ℚ) (dias dias_calc : ℕ) (pensao : ℚ) :
    CalcResult :=
  match orZero inp.horas with
  | none => .erro
  | some h_extras =>
  match orZero inp.percentual with
  | none => .erro
  | some perc_extra =>
  if h_extras > 0 ∧ perc_extra = 0 then .erroPercentual
  else
  let v_h := val_hora (if inp.tipo_valor = .diario then valor else salario / (dias_calc : ℚ))
  let val_h_extras := if h_extras > 0 then calc_h_extra v_h h_extras perc_extra else 0
  match orZero inp.atraso_horas with
  | none => .erro
  | some atraso_h =>
  match orZero inp.atraso_minutos with
  | none => .erro
  | some atraso_m =>
  let valor_atraso := v_h * (atraso_h + atraso_m / 60)
  match orZero inp.faltas with
  | none => .erro
  | some faltas =>
  let valor_falta :=
    if inp.tipo_valor = .diario then valor * faltas else salario / (dias : ℚ) * faltas
  let salario_bruto := salario + val_h_extras
  let inss := calc_inss salario_bruto
  let irrf := calc_irrf (salario_bruto - inss)
  match vtCalc inp salario_bruto with
  | none => .erro
  | some vt =>
  let uteis := count_uteis inp.ano inp.mes 1
  match vrCalc inp uteis with
  | none => .erro
  | some desc_vr =>
  match vaCalc inp uteis with
  | none => .erro
  | some desc_va =>
  .slip (cltSlip salario salario_bruto val_h_extras inss irrf pensao vt desc_vr desc_va
    valor_atraso valor_falta)

/-- The pay-slip assembled in the PJ branch (lines 697–712). -/
def pjSlip (salario pensao : ℚ) : PaySlip :=
  { recebimentos := [(Rubrica.faturamento, salario)]
    descontos :=
      [(Rubrica.irpj, salario * 0.15), (Rubrica.csll, salario * 0.09),
        (Rubrica.pisCofins, salario * 0.065), (Rubrica.iss, salario * 0.035)]
        ++ (if pensao > 0 then [(Rubrica.pensaoAlimenticia, pensao)] else [])
    total_recebimentos := salario
    total_descontos :=
      salario * 0.15 + salario * 0.09 + salario * 0.065 + salario * 0.035 + pensao
    liquido :=
      salario - (salario * 0.15 + salario * 0.09 + salario * 0.065 + salario * 0.035 + pensao) }

/-- The DAS amount of the MEI branch (lines 715–726), by chosen activity. -/
def dasCalc : MEIAtividade → ℚ
  | .comercioIndustria => 75.90 + 1.00
  | .servicos => 75.90 + 5.00
  | .ambos => 75.90 + 1.00 + 5.00

/-- The pay-slip assembled in the MEI branch (lines 727–734). -/
def meiSlip (salario pensao : ℚ) (tipo_ativ : MEIAtividade) : PaySlip :=
  { recebimentos := [(Rubrica.faturamento, salario)]
    descontos :=
      [(Rubrica.das, dasCalc tipo_ativ)]
        ++ (if pensao > 0 then [(Rubrica.pensaoAlimenticia, pensao)] else [])
    total_recebimentos := salario
    total_descontos := dasCalc tipo_ativ + pensao
    liquido := salario - (dasCalc tipo_ativ + pensao) }

/-- The whole of `Calculadora.calcular` (lines 575–739).  The two modal
dialogs are passed in as `Option` answers (`none` = cancelled).  An invalid
year text or the missing overtime percentage hit their dedicated
`showerror` branches; every other raised exception (unparseable value
field, month outside 1–12 making `monthrange` raise, unparseable mandatory
numeric field) lands in the generic top-level handler, embedded as
`CalcResult.erro`. -/
def calcular (inp : Inputs) (promptDiaIni : Option ℕ)
    (promptMei : Option MEIAtividade) : CalcResult :=
  if inp.anoValido = false then .erroAno
  else if inp.mes < 1 ∨ 12 < inp.mes then .erro
  else
    match parseStrict inp.valor with
    | none => .erro
    | some valor =>
      let dias := monthDays inp.ano inp.mes
      match salarioCalc inp valor dias promptDiaIni with
      | none => .cancelled
      | some (salario, dias_calc) =>
        let pensao := pensaoCalc inp salario
        match inp.tipo_contrato with
        | .CLT => cltBranch inp valor salario dias dias_calc pensao
        | .PJ => .slip (pjSlip salario pensao)
        | .MEI =>
          match promptMei with
          | none => .cancelled
          | some tipo_ativ => .slip (meiSlip salario pensao tipo_ativ)

/-- First deduction line with the given label, if any. -/
def PaySlip.desconto (p : PaySlip) (r : Rubrica) : Option ℚ :=
  (p.descontos.find? (fun e => decide (e.1 = r))).map (fun e => e.2)

/-- First earning line with the given label, if any. -/
def PaySlip.recebimento (p : PaySlip) (r : Rubrica) : Option ℚ :=
  (p.recebimentos.find? (fun e => decide (e.1 = r))).map (fun e => e.2)

/-- Deduction line of a calculation result (`none` when no slip was shown). -/
def CalcResult.desconto : CalcResult → Rubrica → Option ℚ
  | .slip p, r => p.desconto r
  | _, _ => none

/-- Earning line of a calculation result (`none` when no slip was shown). -/
def CalcResult.recebimento : CalcResult → Rubrica → Option ℚ
  | .slip p, r => p.recebimento r
  | _, _ => none

/-- Net amount of a calculation result (`none` when no slip was shown). -/
def CalcResult.liquidoVal : CalcResult → Option ℚ
  | .slip p => some p.liquido
  | _ => none

/-- Total deductions of a calculation result (`none` when no slip). -/
def CalcResult.totalDescontosVal : CalcResult → Option ℚ
  | .slip p => some p.total_descontos
  | _ => none

/-- Whether a calculation produced (and showed) a pay slip. -/
def CalcResult.isSlip : CalcResult → Bool
  | .slip _ => true
  | _ => false

/-- A (valid) baseline widget state: CLT, monthly total 3000 for January
2025, no overtime, no lateness, no absences, all vouchers proportional
with empty amount fields, no alimony. -/
def baseInputs : Inputs :=
  { tipo_contrato := .CLT
    tipo_valor := .total
    tipo_calculo := .mes
    valor := .num 3000
    mes := 1
    ano := 2025
    anoValido := true
    horas := .empty
    percentual := .empty
    paga_pensao := false
    tipo_pensao := .percent
    valor_pensao := .empty
    vr_fixo := false
    valor_vr_fixo := .empty
    valor_vr := .empty
    va_fixo := false
    valor_va_fixo := .empty
    valor_va := .empty
    vt_fixo := false
    valor_vt_fixo := .empty
    vt_percentual := .empty
    atraso_horas := .empty
    atraso_minutos := .empty
    faltas := .empty }

/-- Concrete CLT input with 10 overtime hours and an empty percent field. -/
def cexC4 : Inputs := { baseInputs with horas := .num 10 }

/-- Concrete MEI input (monthly total 5000). -/
def cexC5 : Inputs := { baseInputs with tipo_contrato := .MEI, valor := .num 5000 }

/-- Scenario B of the spec: PJ, daily value 10000, whole month, September
2025 (a 30-day month), no alimony. -/
def pjInputB : Inputs :=
  { baseInputs with tipo_contrato := .PJ, tipo_valor := .diario, valor := .num 10000, mes := 9 }

/-- Scenario C of the spec: MEI, monthly total 5000, no alimony. -/
def meiInputC : Inputs :=
  { baseInputs with tipo_contrato := .MEI, valor := .num 5000 }

/-- Concrete CLT input whose transport-voucher percent field holds 10,
above the cap. -/
def cexC6 : Inputs := { baseInputs with vt_percentual := .num 10 }

/-- Concrete CLT input, monthly total 3000 for January 2025, 10 overtime
hours at 50%, alimony elected as 10 percent. -/
def cexC1 : Inputs :=
  { baseInputs with
      horas := .num 10
      percentual := .num 50
      paga_pensao := true
      valor_pensao := .num 10 }

/-- Concrete CLT input: daily value 100, September 2025, FROM_DAY scope,
proportional meal voucher with daily value 10. -/
def cexC2 : Inputs :=
  { baseInputs with
      tipo_valor := .diario
      tipo_calculo := .data
      valor := .num 100
      mes := 9
      valor_vr := .num 10 }

/-- Concrete CLT input (monthly total 2000) in which every fixed-mode
voucher amount and the alimony amount are non-empty unparseable strings. -/
def cexC10 : Inputs :=
  { baseInputs with
      valor := .num 2000
      vt_fixo := true
      valor_vt_fixo := .bad
      vr_fixo := true
      valor_vr_fixo := .bad
      va_fixo := true
      valor_va_fixo := .bad
      paga_pensao := true
      valor_pensao := .bad }

/-- Reduction of `calcular` to the CLT branch when the year text is valid,
the month is in range, the value field parses, and the base-salary block
succeeds. -/
theorem calcular_clt (inp : Inputs) (dia : Option ℕ) (mei : Option MEIAtividade)
    (v sal : ℚ) (dc : ℕ)
    (hc : inp.tipo_contrato = .CLT)
    (hano : inp.anoValido = true)
    (hm1 : 1 ≤ inp.mes) (hm2 : inp.mes ≤ 12)
    (hv : parseStrict inp.valor = some v)
    (hsal : salarioCalc inp v (monthDays inp.ano inp.mes) dia = some (sal, dc)) :
    calcular inp dia mei
      = cltBranch inp v sal (monthDays inp.ano inp.mes) dc (pensaoCalc inp sal) := by
  have hm0 : ¬(inp.mes = 0) := by omega
  have hm12 : ¬(12 < inp.mes) := by omega
  simp [calcular, hano, hm0, hm12, hv, hsal, hc]

/-- Reduction of `calcular` on a PJ input to the PJ pay-slip. -/
theorem calcular_pj (inp : Inputs) (dia : Option ℕ) (mei : Option MEIAtividade)
    (v sal : ℚ) (dc : ℕ)
    (hc : inp.tipo_contrato = .PJ)
    (hano : inp.anoValido = true)
    (hm1 : 1 ≤ inp.mes) (hm2 : inp.mes ≤ 12)
    (hv : parseStrict inp.valor = some v)
    (hsal : salarioCalc inp v (monthDays inp.ano inp.mes) dia = some (sal, dc)) :
    calcular inp dia mei = .slip (pjSlip sal (pensaoCalc inp sal)) := by
  have hm0 : ¬(inp.mes = 0) := by omega
  have hm12 : ¬(12 < inp.mes) := by omega
  simp [calcular, hano, hm0, hm12, hv, hsal, hc]

/-- Reduction of `calcular` on a MEI input with an answered activity
prompt to the MEI pay-slip. -/
theorem calcular_mei (inp : Inputs) (dia : Option ℕ) (a : MEIAtividade)
    (v sal : ℚ) (dc : ℕ)
    (hc : inp.tipo_contrato = .MEI)
    (hano : inp.anoValido = true)
    (hm1 : 1 ≤ inp.mes) (hm2 : inp.mes ≤ 12)
    (hv : parseStrict inp.valor = some v)
    (hsal : salarioCalc inp v (monthDays inp.ano inp.mes) dia = some (sal, dc)) :
    calcular inp dia (some a) = .slip (meiSlip sal (pensaoCalc inp sal) a) := by
  have hm0 : ¬(inp.mes = 0) := by omega
  have hm12 : ¬(12 < inp.mes) := by omega
  simp [calcular, hano, hm0, hm12, hv, hsal, hc]

/-- Reduction of the CLT branch to its pay-slip when every mandatory
numeric field parses and the overtime validation passes. -/
theorem cltBranch_slip (inp : Inputs) (valor salario : ℚ) (dias dias_calc : ℕ)
    (pensao he pe ah am fa vt dvr dva vH vhe bruto : ℚ)
    (hhe : orZero inp.horas = some he)
    (hpe : orZero inp.percentual = some pe)
    (hchk : ¬(he > 0 ∧ pe = 0))
    (hah : orZero inp.atraso_horas = some ah)
    (ham : orZero inp.atraso_minutos = some am)
    (hfa : orZero inp.faltas = some fa)
    (hvH : vH = val_hora (if inp.tipo_valor = .diario then valor else salario / (dias_calc : ℚ)))
    (hvhe : vhe = if he > 0 then calc_h_extra vH he pe else 0)
    (hbruto : bruto = salario + vhe)
    (hvt : vtCalc inp bruto = some vt)
    (hvr : vrCalc inp (count_uteis inp.ano inp.mes 1) = some dvr)
    (hva : vaCalc inp (count_uteis inp.ano inp.mes 1) = some dva) :
    cltBranch inp valor salario dias dias_calc pensao
      = .slip (cltSlip salario bruto vhe (calc_inss bruto)
          (calc_irrf (bruto - calc_inss bruto)) pensao vt dvr dva
          (vH * (ah + am / 60))
          (if inp.tipo_valor = .diario then valor * fa else salario / (dias : ℚ) * fa)) := by
  subst hvH hvhe hbruto
  simp [cltBranch, hhe, hpe, hchk, hah, ham, hfa, hvt, hvr, hva]

/-- A conditional singleton deduction block with a different label is
invisible to `find?`. -/
theorem find?_ite_singleton_ne (c : Prop) [Decidable c] (r r2 : Rubrica) (q : ℚ)
    (h : ¬(r2 = r)) :
    (if c then [(r2, q)] else []).find? (fun e => decide (e.1 = r)) = none := by
  split <;> simp [h]

/-- The alimony line of a CLT slip: present with value `pen` exactly when
`pen > 0`. -/
theorem cltSlip_desconto_pensao (sal br vhe ins irr pen vt dvr dva atr fal : ℚ) :
    (cltSlip sal br vhe ins irr pen vt dvr dva atr fal).desconto Rubrica.pensaoAlimenticia
      = if pen > 0 then some pen else none := by
  by_cases hp : pen > 0 <;>
    simp [cltSlip, PaySlip.desconto, hp, find?_ite_singleton_ne]

/-- The transport-voucher line of a CLT slip is always present. -/
theorem cltSlip_desconto_vt (sal br vhe ins irr pen vt dvr dva atr fal : ℚ) :
    (cltSlip sal br vhe ins irr pen vt dvr dva atr fal).desconto Rubrica.valeTransporte
      = some vt := by
  by_cases hp : pen > 0 <;>
    simp [cltSlip, PaySlip.desconto, hp, find?_ite_singleton_ne]

/-- The meal-voucher line of a CLT slip: present exactly when positive. -/
theorem cltSlip_desconto_vr (sal br vhe ins irr pen vt dvr dva atr fal : ℚ) :
    (cltSlip sal br vhe ins irr pen vt dvr dva atr fal).desconto Rubrica.valeRefeicao
      = if dvr > 0 then some dvr else none := by
  by_cases hp : pen > 0 <;> by_cases hv : dvr > 0 <;>
    simp [cltSlip, PaySlip.desconto, hp, hv, find?_ite_singleton_ne]

/-- The base-salary earning line of a CLT slip. -/
theorem cltSlip_recebimento_base (sal br vhe ins irr pen vt dvr dva atr fal : ℚ) :
    (cltSlip sal br vhe ins irr pen vt dvr dva atr fal).recebimento Rubrica.salarioBase
      = some sal := by
  simp [cltSlip, PaySlip.recebimento, find?_ite_singleton_ne]

/-- C3: the social-security contribution `calc_inss` is non-decreasing on
amounts in [0, 8157.41] (the table ceiling), and is constant above the
ceiling: `calc_inss (8157.41 + k) = calc_inss 8157.41` for every `k > 0`. -/
theorem calc_inss_monotone_and_capped :
    (∀ a b : ℚ, 0 ≤ a → a ≤ b → b ≤ 8157.41 → calc_inss a ≤ calc_inss b) ∧
    (∀ k : ℚ, 0 < k → calc_inss (8157.41 + k) = calc_inss 8157.41) := by
  constructor
  · intro a b ha hab hb
    have h1 : a ≤ (8157.41 : ℚ) := le_trans hab hb
    simp only [calc_inss, rmin, if_pos h1, if_pos hb]
    split_ifs <;> linarith
  · intro k hk
    have h1 : ¬((8157.41 : ℚ) + k ≤ 8157.41) := by linarith
    simp only [calc_inss, rmin, if_neg h1, if_pos (le_refl (8157.41 : ℚ))]

/-- Witness for C3 at concrete inputs `a = 100`, `b = 200`, `k = 1`. -/
theorem calc_inss_monotone_and_capped_witness :
    calc_inss 100 ≤ calc_inss 200 ∧ calc_inss (8157.41 + 1) = calc_inss 8157.41 :=
  ⟨calc_inss_monotone_and_capped.1 100 200 (by norm_num) (by norm_num) (by norm_num),
   calc_inss_monotone_and_capped.2 1 (by norm_num)⟩

/-- C9: the income-tax lookup `calc_irrf` returns 0 for every base at or
below the first threshold 2428.80, and at each bracket boundary the value
given by the bracket ending there and the value the next bracket's
rate/deduction pair would give agree within 0.01. -/
theorem calc_irrf_zero_low_and_boundaries :
    (∀ base : ℚ, base ≤ 2428.80 → calc_irrf base = 0) ∧
    |calc_irrf 2428.80 - rmax 0 (2428.80 * 0.075 - 182.16)| ≤ 0.01 ∧
    |calc_irrf 2826.65 - rmax 0 (2826.65 * 0.15 - 394.16)| ≤ 0.01 ∧
    |calc_irrf 3751.05 - rmax 0 (3751.05 * 0.225 - 675.49)| ≤ 0.01 ∧
    |calc_irrf 4664.68 - rmax 0 (4664.68 * 0.275 - 908.73)| ≤ 0.01 := by
  refine ⟨?_, ?_, ?_, ?_, ?_⟩
  · intro base hb
    rw [calc_irrf, if_pos hb]
    norm_num [rmax]
  all_goals norm_num [calc_irrf, rmax, abs_le]

/-- Witness for C9's universally quantified part at base 1000. -/
theorem calc_irrf_zero_low_witness : calc_irrf 1000 = 0 :=
  calc_irrf_zero_low_and_boundaries.1 1000 (by norm_num)


/-- C4: on a CLT input whose year/month/value pass the earlier checks, if
the overtime-hours field parses to a value above 0 and the percent field is
empty or parses to 0, `calcular` stops in the dedicated
`showerror` branch for the missing overtime percentage and never shows a
pay slip. -/
theorem clt_overtime_needs_percent (inp : Inputs) (dia : Option ℕ)
    (mei : Option MEIAtividade) (v sal he : ℚ) (dc : ℕ)
    (hc : inp.tipo_contrato = .CLT)
    (hano : inp.anoValido = true)
    (hm1 : 1 ≤ inp.mes) (hm2 : inp.mes ≤ 12)
    (hv : parseStrict inp.valor = some v)
    (hsal : salarioCalc inp v (monthDays inp.ano inp.mes) dia = some (sal, dc))
    (hhe : orZero inp.horas = some he)
    (hhe0 : he > 0)
    (hpe : orZero inp.percentual = some 0) :
    calcular inp dia mei = CalcResult.erroPercentual ∧
    ∀ s, calcular inp dia mei ≠ CalcResult.slip s := by
  have h1 := calcular_clt inp dia mei v sal dc hc hano hm1 hm2 hv hsal
  have h2 : cltBranch inp v sal (monthDays inp.ano inp.mes) dc (pensaoCalc inp sal)
      = CalcResult.erroPercentual := by
    simp [cltBranch, hhe, hpe, hhe0]
  refine ⟨h1.trans h2, fun s => ?_⟩
  rw [h1, h2]
  simp

/-- Witness for C4 at the concrete input `cexC4`. -/
theorem clt_overtime_needs_percent_witness :
    calcular cexC4 none none = CalcResult.erroPercentual ∧
    ∀ s, calcular cexC4 none none ≠ CalcResult.slip s :=
  clt_overtime_needs_percent cexC4 none none 3000 3000 10 31 rfl rfl
    (by norm_num [cexC4, baseInputs]) (by norm_num [cexC4, baseInputs]) rfl rfl rfl
    (by norm_num) rfl

/-- C5: on a MEI input that reaches the activity prompt, a cancelled
prompt (`none`) makes `calcular` return `Cancelled`; no pay slip, not even
a partial one, is produced. -/
theorem mei_cancelled_no_slip (inp : Inputs) (dia : Option ℕ) (v sal : ℚ) (dc : ℕ)
    (hc : inp.tipo_contrato = .MEI)
    (hano : inp.anoValido = true)
    (hm1 : 1 ≤ inp.mes) (hm2 : inp.mes ≤ 12)
    (hv : parseStrict inp.valor = some v)
    (hsal : salarioCalc inp v (monthDays inp.ano inp.mes) dia = some (sal, dc)) :
    calcular inp dia none = CalcResult.cancelled ∧
    ∀ s, calcular inp dia none ≠ CalcResult.slip s := by
  have hm0 : ¬(inp.mes = 0) := by omega
  have hm12 : ¬(12 < inp.mes) := by omega
  have h1 : calcular inp dia none = CalcResult.cancelled := by
    simp [calcular, hano, hm0, hm12, hv, hsal, hc]
  refine ⟨h1, fun s => ?_⟩
  rw [h1]
  simp

/-- Witness for C5 at the concrete input `cexC5`. -/
theorem mei_cancelled_no_slip_witness :
    calcular cexC5 none none = CalcResult.cancelled ∧
    ∀ s, calcular cexC5 none none ≠ CalcResult.slip s :=
  mei_cancelled_no_slip cexC5 none 5000 5000 31 rfl rfl
    (by norm_num [cexC5, baseInputs]) (by norm_num [cexC5, baseInputs]) rfl rfl


/-- C7: on every PJ input that reaches the PJ branch, the four statutory
deductions are 15%, 9%, 6.5% and 3.5% of `salario` and the net amount is
`salario` minus the four taxes minus the alimony; in particular scenario B
(daily value 10000, whole 30-day month, no alimony) gives revenue 300000,
total deductions 102000 and net 198000. -/
theorem pj_fixed_rates_and_net (inp : Inputs) (dia : Option ℕ)
    (mei : Option MEIAtividade) (v sal : ℚ) (dc : ℕ)
    (hc : inp.tipo_contrato = .PJ)
    (hano : inp.anoValido = true)
    (hm1 : 1 ≤ inp.mes) (hm2 : inp.mes ≤ 12)
    (hv : parseStrict inp.valor = some v)
    (hsal : salarioCalc inp v (monthDays inp.ano inp.mes) dia = some (sal, dc)) :
    calcular inp dia mei = CalcResult.slip (pjSlip sal (pensaoCalc inp sal)) ∧
    (pjSlip sal (pensaoCalc inp sal)).desconto Rubrica.irpj = some (sal * 0.15) ∧
    (pjSlip sal (pensaoCalc inp sal)).desconto Rubrica.csll = some (sal * 0.09) ∧
    (pjSlip sal (pensaoCalc inp sal)).desconto Rubrica.pisCofins = some (sal * 0.065) ∧
    (pjSlip sal (pensaoCalc inp sal)).desconto Rubrica.iss = some (sal * 0.035) ∧
    (pjSlip sal (pensaoCalc inp sal)).liquido
      = sal - (sal * 0.15 + sal * 0.09 + sal * 0.065 + sal * 0.035 + pensaoCalc inp sal) ∧
    (calcular pjInputB none none).recebimento Rubrica.faturamento = some 300000 ∧
    (calcular pjInputB none none).totalDescontosVal = some 102000 ∧
    (calcular pjInputB none none).liquidoVal = some 198000 := by
  have hpj := calcular_pj pjInputB none none 10000 300000 30 rfl rfl
    (by norm_num [pjInputB, baseInputs]) (by norm_num [pjInputB, baseInputs]) rfl
    (by norm_num [salarioCalc, pjInputB, baseInputs, monthDays, isLeap])
  refine ⟨calcular_pj inp dia mei v sal dc hc hano hm1 hm2 hv hsal,
    ?_, ?_, ?_, ?_, by simp [pjSlip], ?_, ?_, ?_⟩
  · simp [pjSlip, PaySlip.desconto]
  · simp [pjSlip, PaySlip.desconto]
  · simp [pjSlip, PaySlip.desconto]
  · simp [pjSlip, PaySlip.desconto]
  · rw [hpj]
    simp [pjSlip, pensaoCalc, pjInputB, baseInputs,
      CalcResult.recebimento, PaySlip.recebimento]
  · rw [hpj]
    simp [pjSlip, pensaoCalc, pjInputB, baseInputs, CalcResult.totalDescontosVal]
    norm_num
  · rw [hpj]
    simp [pjSlip, pensaoCalc, pjInputB, baseInputs, CalcResult.liquidoVal]
    norm_num

/-- Witness for C7 at the concrete scenario-B input. -/
theorem pj_fixed_rates_and_net_witness :
    calcular pjInputB none none = CalcResult.slip (pjSlip 300000 (pensaoCalc pjInputB 300000)) ∧
    (pjSlip 300000 (pensaoCalc pjInputB 300000)).liquido
      = 300000 - (300000 * 0.15 + 300000 * 0.09 + 300000 * 0.065 + 300000 * 0.035
          + pensaoCalc pjInputB 300000) := by
  have h := pj_fixed_rates_and_net pjInputB none none 10000 300000 30 rfl rfl
    (by norm_num [pjInputB, baseInputs]) (by norm_num [pjInputB, baseInputs]) rfl
    (by norm_num [salarioCalc, pjInputB, baseInputs, monthDays, isLeap])
  exact ⟨h.1, h.2.2.2.2.2.1⟩

/-- C8: on every MEI input with an answered activity prompt, the slip's
statutory DAS payment is 75.90 plus 1.00 when the activity includes
commerce/industry plus 5.00 when it includes services, and the net amount
is `salario - (das + alimony)`; in particular scenario C (activity BOTH,
monthly total 5000, no alimony) gives DAS 81.90 and net 4918.10. -/
theorem mei_das_components_and_net (inp : Inputs) (dia : Option ℕ) (a : MEIAtividade)
    (v sal : ℚ) (dc : ℕ)
    (hc : inp.tipo_contrato = .MEI)
    (hano : inp.anoValido = true)
    (hm1 : 1 ≤ inp.mes) (hm2 : inp.mes ≤ 12)
    (hv : parseStrict inp.valor = some v)
    (hsal : salarioCalc inp v (monthDays inp.ano inp.mes) dia = some (sal, dc)) :
    calcular inp dia (some a) = CalcResult.slip (meiSlip sal (pensaoCalc inp sal) a) ∧
    dasCalc MEIAtividade.comercioIndustria = 75.90 + 1.00 ∧
    dasCalc MEIAtividade.servicos = 75.90 + 5.00 ∧
    dasCalc MEIAtividade.ambos = 75.90 + 1.00 + 5.00 ∧
    (∀ s2 p2 a2, (meiSlip s2 p2 a2).desconto Rubrica.das = some (dasCalc a2)) ∧
    (∀ s2 p2 a2, (meiSlip s2 p2 a2).liquido = s2 - (dasCalc a2 + p2)) ∧
    (calcular meiInputC none (some MEIAtividade.ambos)).desconto Rubrica.das = some 81.90 ∧
    (calcular meiInputC none (some MEIAtividade.ambos)).liquidoVal = some 4918.10 := by
  have hmei := calcular_mei meiInputC none MEIAtividade.ambos 5000 5000 31 rfl rfl
    (by norm_num [meiInputC, baseInputs]) (by norm_num [meiInputC, baseInputs]) rfl rfl
  refine ⟨calcular_mei inp dia a v sal dc hc hano hm1 hm2 hv hsal,
    by norm_num [dasCalc], by norm_num [dasCalc], by norm_num [dasCalc],
    fun s2 p2 a2 => by simp [meiSlip, PaySlip.desconto],
    fun s2 p2 a2 => by simp [meiSlip],
    ?_, ?_⟩
  · rw [hmei]
    simp [meiSlip, pensaoCalc, meiInputC, baseInputs,
      CalcResult.desconto, PaySlip.desconto, dasCalc]
    norm_num
  · rw [hmei]
    simp [meiSlip, pensaoCalc, meiInputC, baseInputs, CalcResult.liquidoVal, dasCalc]
    norm_num

/-- Witness for C8 at the concrete scenario-C input. -/
theorem mei_das_components_and_net_witness :
    calcular meiInputC none (some MEIAtividade.ambos)
      = CalcResult.slip (meiSlip 5000 (pensaoCalc meiInputC 5000) MEIAtividade.ambos) ∧
    (meiSlip 5000 (pensaoCalc meiInputC 5000) MEIAtividade.ambos).liquido
      = 5000 - (dasCalc MEIAtividade.ambos + pensaoCalc meiInputC 5000) := by
  have h := mei_das_components_and_net meiInputC none MEIAtividade.ambos 5000 5000 31 rfl rfl
    (by norm_num [meiInputC, baseInputs]) (by norm_num [meiInputC, baseInputs]) rfl rfl
  exact ⟨h.1, h.2.2.2.2.2.1 5000 (pensaoCalc meiInputC 5000) MEIAtividade.ambos⟩


/-- The source's `if vt_pct > 6: vt_pct = 6` is the minimum with 6. -/
theorem ite_gt6_eq_rmin (q : ℚ) : (if q > 6 then 6 else q) = rmin q 6 := by
  rw [rmin]
  split_ifs <;> first | rfl | linarith

/-- C6: on every CLT input that produces a slip with the transport voucher
in proportional mode, the transport deduction is
`grossPay * min(percent, 6) / 100` where `grossPay = salario + overtime`
and the percent comes from the field, defaulting to 6 when the field is
empty; a percent above 6 is capped at 6. -/
theorem vt_proportional_capped_at_6 (inp : Inputs) (dia : Option ℕ)
    (mei : Option MEIAtividade) (v sal he pe ah am fa q dvr dva vH vhe bruto : ℚ) (dc : ℕ)
    (hc : inp.tipo_contrato = .CLT)
    (hano : inp.anoValido = true)
    (hm1 : 1 ≤ inp.mes) (hm2 : inp.mes ≤ 12)
    (hv : parseStrict inp.valor = some v)
    (hsal : salarioCalc inp v (monthDays inp.ano inp.mes) dia = some (sal, dc))
    (hhe : orZero inp.horas = some he)
    (hpe : orZero inp.percentual = some pe)
    (hchk : ¬(he > 0 ∧ pe = 0))
    (hah : orZero inp.atraso_horas = some ah)
    (ham : orZero inp.atraso_minutos = some am)
    (hfa : orZero inp.faltas = some fa)
    (hvH : vH = val_hora (if inp.tipo_valor = .diario then v else sal / (dc : ℚ)))
    (hvhe : vhe = if he > 0 then calc_h_extra vH he pe else 0)
    (hbruto : bruto = sal + vhe)
    (hvtmode : inp.vt_fixo = false)
    (hq : orDefault 6 inp.vt_percentual = some q)
    (hvr : vrCalc inp (count_uteis inp.ano inp.mes 1) = some dvr)
    (hva : vaCalc inp (count_uteis inp.ano inp.mes 1) = some dva) :
    (calcular inp dia mei).desconto Rubrica.valeTransporte
      = some (bruto * rmin q 6 / 100) ∧
    orDefault 6 RawField.empty = some 6 := by
  have hvt : vtCalc inp bruto = some (bruto * (if q > 6 then 6 else q) / 100) := by
    simp [vtCalc, hvtmode, hq]
  have h1 := calcular_clt inp dia mei v sal dc hc hano hm1 hm2 hv hsal
  have h2 := cltBranch_slip inp v sal (monthDays inp.ano inp.mes) dc (pensaoCalc inp sal)
    he pe ah am fa (bruto * (if q > 6 then 6 else q) / 100) dvr dva vH vhe bruto
    hhe hpe hchk hah ham hfa hvH hvhe hbruto hvt hvr hva
  rw [h1, h2]
  exact ⟨by simp [CalcResult.desconto, cltSlip_desconto_vt, ite_gt6_eq_rmin], rfl⟩

/-- Witness for C6 at the concrete input `cexC6` (percent field 10): the
deduction uses `min 10 6 = 6`. -/
theorem vt_proportional_capped_at_6_witness :
    (calcular cexC6 none none).desconto Rubrica.valeTransporte
      = some (3000 * rmin 10 6 / 100) ∧
    orDefault 6 RawField.empty = some 6 :=
  vt_proportional_capped_at_6 cexC6 none none 3000 3000 0 0 0 0 0 10 0 0
    (val_hora (3000 / (31 : ℚ))) 0 3000 31
    rfl rfl (by norm_num [cexC6, baseInputs]) (by norm_num [cexC6, baseInputs]) rfl rfl
    rfl rfl (by norm_num) rfl rfl rfl
    (by simp +decide [cexC6, baseInputs]) (by norm_num) (by norm_num)
    rfl rfl
    (by simp [vrCalc, cexC6, baseInputs, orZero])
    (by simp [vaCalc, cexC6, baseInputs, orZero])


/-- The gross-pay earning line of a CLT slip. -/
theorem cltSlip_recebimento_bruto (sal br vhe ins irr pen vt dvr dva atr fal : ℚ) :
    (cltSlip sal br vhe ins irr pen vt dvr dva atr fal).recebimento Rubrica.salarioBruto
      = some br := by
  simp [cltSlip, PaySlip.recebimento]

/-- C1 (amended): on every CLT input that produces a slip with alimony
elected as Percent(p), the alimony deduction is `p/100` of the base salary
`salario` (the pay before overtime is added), not of the
overtime-inclusive gross pay; it is listed only when positive. -/
theorem pensao_percent_on_base_salary (inp : Inputs) (dia : Option ℕ)
    (mei : Option MEIAtividade) (v sal p he pe ah am fa vt dvr dva vH vhe bruto : ℚ) (dc : ℕ)
    (hc : inp.tipo_contrato = .CLT)
    (hano : inp.anoValido = true)
    (hm1 : 1 ≤ inp.mes) (hm2 : inp.mes ≤ 12)
    (hv : parseStrict inp.valor = some v)
    (hsal : salarioCalc inp v (monthDays inp.ano inp.mes) dia = some (sal, dc))
    (hhe : orZero inp.horas = some he)
    (hpe : orZero inp.percentual = some pe)
    (hchk : ¬(he > 0 ∧ pe = 0))
    (hah : orZero inp.atraso_horas = some ah)
    (ham : orZero inp.atraso_minutos = some am)
    (hfa : orZero inp.faltas = some fa)
    (hvH : vH = val_hora (if inp.tipo_valor = .diario then v else sal / (dc : ℚ)))
    (hvhe : vhe = if he > 0 then calc_h_extra vH he pe else 0)
    (hbruto : bruto = sal + vhe)
    (hvt : vtCalc inp bruto = some vt)
    (hvr : vrCalc inp (count_uteis inp.ano inp.mes 1) = some dvr)
    (hva : vaCalc inp (count_uteis inp.ano inp.mes 1) = some dva)
    (hpen : inp.paga_pensao = true)
    (htp : inp.tipo_pensao = .percent)
    (hp : tryOrZero inp.valor_pensao = p) :
    (calcular inp dia mei).desconto Rubrica.pensaoAlimenticia
      = if sal * p / 100 > 0 then some (sal * p / 100) else none := by
  have hpc : pensaoCalc inp sal = sal * p / 100 := by
    simp [pensaoCalc, hpen, htp, hp]
  have h1 := calcular_clt inp dia mei v sal dc hc hano hm1 hm2 hv hsal
  have h2 := cltBranch_slip inp v sal (monthDays inp.ano inp.mes) dc (pensaoCalc inp sal)
    he pe ah am fa vt dvr dva vH vhe bruto
    hhe hpe hchk hah ham hfa hvH hvhe hbruto hvt hvr hva
  rw [h1, h2]
  simp [CalcResult.desconto, cltSlip_desconto_pensao, hpc]

/-- Witness for C1's amended theorem at the concrete input `cexC1`. -/
theorem pensao_percent_on_base_salary_witness :
    (calcular cexC1 none none).desconto Rubrica.pensaoAlimenticia
      = if (3000 : ℚ) * 10 / 100 > 0 then some ((3000 : ℚ) * 10 / 100) else none :=
  pensao_percent_on_base_salary cexC1 none none 3000 3000 10 10 50 0 0 0
    (98625 / 31 * 6 / 100) 0 0 (3000 / 248) (5625 / 31) (98625 / 31) 31
    rfl rfl (by norm_num [cexC1, baseInputs]) (by norm_num [cexC1, baseInputs]) rfl rfl
    rfl rfl (by norm_num) rfl rfl rfl
    (by simp +decide [cexC1, baseInputs, val_hora]; norm_num)
    (by norm_num [calc_h_extra])
    (by norm_num)
    (by simp +decide [vtCalc, cexC1, baseInputs, orDefault])
    (by simp [vrCalc, cexC1, baseInputs, orZero])
    (by simp [vaCalc, cexC1, baseInputs, orZero])
    rfl rfl rfl

/-- Counterexample to C1 as stated: at `cexC1` (overtime present), the
alimony deduction is 300 = 10% of the base salary 3000, while 10% of the
gross pay 98625/31 is a different number. -/
theorem pensao_percent_not_on_gross_cex :
    (calcular cexC1 none none).desconto Rubrica.pensaoAlimenticia = some 300 ∧
    (calcular cexC1 none none).recebimento Rubrica.salarioBruto = some (98625 / 31) ∧
    (300 : ℚ) ≠ 98625 / 31 * 10 / 100 := by
  have h1 := calcular_clt cexC1 none none 3000 3000 31 rfl rfl
    (by norm_num [cexC1, baseInputs]) (by norm_num [cexC1, baseInputs]) rfl rfl
  have h2 := cltBranch_slip cexC1 3000 3000 (monthDays cexC1.ano cexC1.mes) 31
    (pensaoCalc cexC1 3000) 10 50 0 0 0
    (98625 / 31 * 6 / 100) 0 0 (3000 / 248) (5625 / 31) (98625 / 31)
    rfl rfl (by norm_num) rfl rfl rfl
    (by simp +decide [cexC1, baseInputs, val_hora]; norm_num)
    (by norm_num [calc_h_extra])
    (by norm_num)
    (by simp +decide [vtCalc, cexC1, baseInputs, orDefault])
    (by simp [vrCalc, cexC1, baseInputs, orZero])
    (by simp [vaCalc, cexC1, baseInputs, orZero])
  have hpc : pensaoCalc cexC1 3000 = 300 := by
    norm_num [pensaoCalc, cexC1, baseInputs, tryOrZero]
  rw [h1, h2]
  refine ⟨?_, ?_, by norm_num⟩
  · simp [CalcResult.desconto, cltSlip_desconto_pensao, hpc]
  · simp [CalcResult.recebimento, cltSlip_recebimento_bruto]


/-- September 2025 has 30 days. -/
theorem monthDays_2025_9 : monthDays 2025 9 = 30 := by decide

/-- September 2025 has 22 business days (Mon–Fri). -/
theorem uteis_2025_9_full : count_uteis 2025 9 1 = 22 := by decide

/-- Counting from September 15, 2025 there are only 12 business days. -/
theorem uteis_2025_9_from_15 : count_uteis 2025 9 15 = 12 := by decide

/-- C2 (amended): on a CLT input with payMode DAILY and scope FROM_DAY(d),
the base salary is `baseValue * (daysInMonth - d + 1)`, but the
business-day count used for the proportional meal/food voucher deductions
is `count_uteis(year, month, 1)` — the whole month — regardless of `d`. -/
theorem from_day_salary_shifted_uteis_full_month (inp : Inputs) (d : ℕ)
    (mei : Option MEIAtividade) (v sal he pe ah am fa vt vr dva vH vhe bruto : ℚ) (dc : ℕ)
    (hc : inp.tipo_contrato = .CLT)
    (hano : inp.anoValido = true)
    (hm1 : 1 ≤ inp.mes) (hm2 : inp.mes ≤ 12)
    (hv : parseStrict inp.valor = some v)
    (hdiario : inp.tipo_valor = .diario)
    (hdata : inp.tipo_calculo = .data)
    (hd1 : 1 ≤ d) (hd2 : d ≤ monthDays inp.ano inp.mes)
    (hsal : sal = v * ((monthDays inp.ano inp.mes - d + 1 : ℕ) : ℚ))
    (hdc : dc = monthDays inp.ano inp.mes - d + 1)
    (hhe : orZero inp.horas = some he)
    (hpe : orZero inp.percentual = some pe)
    (hchk : ¬(he > 0 ∧ pe = 0))
    (hah : orZero inp.atraso_horas = some ah)
    (ham : orZero inp.atraso_minutos = some am)
    (hfa : orZero inp.faltas = some fa)
    (hvH : vH = val_hora (if inp.tipo_valor = .diario then v else sal / (dc : ℚ)))
    (hvhe : vhe = if he > 0 then calc_h_extra vH he pe else 0)
    (hbruto : bruto = sal + vhe)
    (hvt : vtCalc inp bruto = some vt)
    (hvrmode : inp.vr_fixo = false)
    (hvrf : orZero inp.valor_vr = some vr)
    (hva : vaCalc inp (count_uteis inp.ano inp.mes 1) = some dva) :
    (calcular inp (some d) mei).recebimento Rubrica.salarioBase = some sal ∧
    (calcular inp (some d) mei).desconto Rubrica.valeRefeicao
      = (if vr * ((count_uteis inp.ano inp.mes 1 : ℕ) : ℚ) * 0.2 > 0
         then some (vr * ((count_uteis inp.ano inp.mes 1 : ℕ) : ℚ) * 0.2) else none) := by
  have hsalc : salarioCalc inp v (monthDays inp.ano inp.mes) (some d) = some (sal, dc) := by
    simp [salarioCalc, hdiario, hdata, hsal, hdc]
  have hvr : vrCalc inp (count_uteis inp.ano inp.mes 1)
      = some (vr * ((count_uteis inp.ano inp.mes 1 : ℕ) : ℚ) * 0.2) := by
    simp [vrCalc, hvrmode, hvrf]
  have h1 := calcular_clt inp (some d) mei v sal dc hc hano hm1 hm2 hv hsalc
  have h2 := cltBranch_slip inp v sal (monthDays inp.ano inp.mes) dc (pensaoCalc inp sal)
    he pe ah am fa vt (vr * ((count_uteis inp.ano inp.mes 1 : ℕ) : ℚ) * 0.2) dva vH vhe bruto
    hhe hpe hchk hah ham hfa hvH hvhe hbruto hvt hvr hva
  rw [h1, h2]
  exact ⟨by simp [CalcResult.recebimento, cltSlip_recebimento_base],
    by simp [CalcResult.desconto, cltSlip_desconto_vr]⟩

/-- Witness for C2's amended theorem at `cexC2` with start day 15. -/
theorem from_day_salary_shifted_uteis_full_month_witness :
    (calcular cexC2 (some 15) none).recebimento Rubrica.salarioBase = some 1600 ∧
    (calcular cexC2 (some 15) none).desconto Rubrica.valeRefeicao
      = (if (10 : ℚ) * ((count_uteis cexC2.ano cexC2.mes 1 : ℕ) : ℚ) * 0.2 > 0
         then some ((10 : ℚ) * ((count_uteis cexC2.ano cexC2.mes 1 : ℕ) : ℚ) * 0.2)
         else none) :=
  from_day_salary_shifted_uteis_full_month cexC2 15 none 100 1600 0 0 0 0 0 96 10 0
    (25 / 2) 0 1600 16
    rfl rfl (by norm_num [cexC2, baseInputs]) (by norm_num [cexC2, baseInputs]) rfl
    rfl rfl (by norm_num)
    (by norm_num [cexC2, baseInputs, monthDays, isLeap])
    (by norm_num [cexC2, baseInputs, monthDays, isLeap])
    (by norm_num [cexC2, baseInputs, monthDays, isLeap])
    rfl rfl (by norm_num) rfl rfl rfl
    (by simp +decide [cexC2, baseInputs, val_hora]; norm_num)
    (by norm_num) (by norm_num)
    (by simp +decide [vtCalc, cexC2, baseInputs, orDefault]; norm_num)
    rfl rfl
    (by simp [vaCalc, cexC2, baseInputs, orZero])

/-- Counterexample to C2 as stated: at `cexC2` with start day 15 the
salary is shifted (100 * 16 = 1600) but the meal-voucher deduction is
44 = 10 * 22 * 0.2, using the 22 business days of the whole month, not the
12 business days of [Sep 15, Sep 30]. -/
theorem from_day_uteis_not_shifted_cex :
    (calcular cexC2 (some 15) none).recebimento Rubrica.salarioBase = some 1600 ∧
    (calcular cexC2 (some 15) none).desconto Rubrica.valeRefeicao = some 44 ∧
    count_uteis 2025 9 15 = 12 ∧ (44 : ℚ) ≠ 10 * ((12 : ℕ) : ℚ) * 0.2 := by
  have hsalc : salarioCalc cexC2 100 (monthDays cexC2.ano cexC2.mes) (some 15)
      = some (1600, 16) := by
    simp +decide [salarioCalc, cexC2, baseInputs, monthDays, isLeap]
    norm_num
  have hvr : vrCalc cexC2 (count_uteis cexC2.ano cexC2.mes 1) = some 44 := by
    simp [vrCalc, cexC2, baseInputs, orZero, uteis_2025_9_full]
    norm_num
  have h1 := calcular_clt cexC2 (some 15) none 100 1600 16 rfl rfl
    (by norm_num [cexC2, baseInputs]) (by norm_num [cexC2, baseInputs]) rfl hsalc
  have h2 := cltBranch_slip cexC2 100 1600 (monthDays cexC2.ano cexC2.mes) 16
    (pensaoCalc cexC2 1600) 0 0 0 0 0 96 44 0 (25 / 2) 0 1600
    rfl rfl (by norm_num) rfl rfl rfl
    (by simp +decide [cexC2, baseInputs, val_hora]; norm_num)
    (by norm_num) (by norm_num)
    (by simp +decide [vtCalc, cexC2, baseInputs, orDefault]; norm_num)
    hvr
    (by simp [vaCalc, cexC2, baseInputs, orZero])
  rw [h1, h2]
  refine ⟨by simp [CalcResult.recebimento, cltSlip_recebimento_base],
    ?_, uteis_2025_9_from_15, by norm_num⟩
  rw [CalcResult.desconto, cltSlip_desconto_vr]
  norm_num

/-- C10: when a voucher is in fixed-deduction mode or alimony is elected
and the corresponding amount field cannot be parsed as a number, the engine
substitutes 0 for that deduction (the `try/except` blocks) and still
produces a pay slip instead of reporting an error: shown generally for each
of the four blocks, and end-to-end on `cexC10` where all four fields are
unparseable at once. -/
theorem unparseable_amounts_silently_zero :
    (∀ inp bruto, inp.vt_fixo = true → inp.valor_vt_fixo = RawField.bad →
        vtCalc inp bruto = some 0) ∧
    (∀ inp uteis, inp.vr_fixo = true → inp.valor_vr_fixo = RawField.bad →
        vrCalc inp uteis = some 0) ∧
    (∀ inp uteis, inp.va_fixo = true → inp.valor_va_fixo = RawField.bad →
        vaCalc inp uteis = some 0) ∧
    (∀ inp sal, inp.paga_pensao = true → inp.valor_pensao = RawField.bad →
        pensaoCalc inp sal = 0) ∧
    ((calcular cexC10 none none).isSlip = true ∧
     (calcular cexC10 none none).desconto Rubrica.valeTransporte = some 0 ∧
     (calcular cexC10 none none).desconto Rubrica.valeRefeicao = none ∧
     (calcular cexC10 none none).desconto Rubrica.valeAlimentacao = none ∧
     (calcular cexC10 none none).desconto Rubrica.pensaoAlimenticia = none) := by
  have hpc : pensaoCalc cexC10 2000 = 0 := by
    simp [pensaoCalc, cexC10, baseInputs, tryOrZero]
  have h1 := calcular_clt cexC10 none none 2000 2000 31 rfl rfl
    (by norm_num [cexC10, baseInputs]) (by norm_num [cexC10, baseInputs]) rfl rfl
  have h2 := cltBranch_slip cexC10 2000 2000 (monthDays cexC10.ano cexC10.mes) 31
    (pensaoCalc cexC10 2000) 0 0 0 0 0 0 0 0 (val_hora (2000 / (31 : ℚ))) 0 2000
    rfl rfl (by norm_num) rfl rfl rfl
    (by simp +decide [cexC10, baseInputs]) (by norm_num) (by norm_num)
    (by simp [vtCalc, cexC10, baseInputs, tryOrZero])
    (by simp [vrCalc, cexC10, baseInputs, tryOrZero])
    (by simp [vaCalc, cexC10, baseInputs, tryOrZero])
  refine ⟨fun inp bruto hm hb => by simp [vtCalc, hm, hb, tryOrZero],
    fun inp uteis hm hb => by simp [vrCalc, hm, hb, tryOrZero],
    fun inp uteis hm hb => by simp [vaCalc, hm, hb, tryOrZero],
    fun inp sal hm hb => ?_, ?_, ?_, ?_, ?_, ?_⟩
  · rcases htp : inp.tipo_pensao <;> simp [pensaoCalc, hm, hb, htp, tryOrZero]
  · rw [h1, h2]
    simp [CalcResult.isSlip]
  · rw [h1, h2]
    simp [CalcResult.desconto, cltSlip_desconto_vt]
  · rw [h1, h2]
    rw [CalcResult.desconto, cltSlip_desconto_vr]
    norm_num
  · rw [h1, h2]
    rw [CalcResult.desconto]
    simp [cltSlip, PaySlip.desconto, hpc]
  · rw [h1, h2]
    rw [CalcResult.desconto, cltSlip_desconto_pensao, hpc]
    norm_num

/-- Witness for C10's first quantified part at the concrete input
`cexC10`. -/
theorem unparseable_amounts_silently_zero_witness :
    vtCalc cexC10 2000 = some 0 :=
  unparseable_amounts_silently_zero.1 cexC10 2000 rfl rfl

end Recebimentos
